import Mathlib

/-!
# OGVR PluginKit device interface (DeviceInterfaceC.cpp)

A shallow embedding of the C entry points of `src/ogvr/PluginKit/DeviceInterfaceC.cpp`:

* `ogvrDeviceSendData`
* `ogvrDeviceRegisterMessageType`
* `ogvrDeviceGenericInit` (the template behind the two init entry points)
* `ogvrDeviceSyncInit`, `ogvrDeviceAsyncInit`
* `ogvrDeviceSyncRegisterUpdateCallback`, `ogvrDeviceAsyncStartWaitLoop`

The entry points are thin: each one checks its handle, then drives collaborators whose
code lives in other files (`Connection`, `DeviceToken`, `SyncDeviceToken`,
`AsyncDeviceToken`, `PluginSpecificRegistrationContext`, `registerObjectForDeletion`).
The embedding therefore has two layers.

1. The entry points, written against an interface `Env σ` of collaborator operations
   over an arbitrary program state `σ`. Statements proved at this layer hold whatever the
   collaborators do.
2. One concrete state `World` (a heap of objects addressed by `Ptr`) with the collaborators
   modelled from the design document, packaged as `specEnv : Env World`.

Logging (`OGVR_DEV_VERBOSE`, `std::cerr`) is not modelled.
-/

namespace ogvr

/-! ## Values crossing the C boundary -/

/-- The status code every entry point returns (`OGVR_PluginReturnCode`). -/
inductive OGVR_PluginReturnCode where
  | OGVR_PLUGIN_SUCCESS
  | OGVR_PLUGIN_FAILURE
  deriving DecidableEq, Repr

/-- The address of an object. -/
abbrev Ptr := Nat

/-- A C pointer used as an opaque handle (`void *`): `none` is the null pointer. -/
abbrev Handle := Option Ptr

abbrev OGVR_DeviceToken := Handle
abbrev OGVR_MessageType := Handle
abbrev OGVR_PluginRegContext := Handle

/-- A C function pointer (`OGVR_SyncDeviceUpdateCallback`, `OGVR_AsyncDeviceWaitCallback`). -/
abbrev Callback := Nat

/-- The opaque `void *userData` that accompanies a callback. -/
abbrev UserData := Nat

/-- The C++ exceptions a collaborator can raise. -/
inductive Exn where
  | RegistrationError
  | InvalidArgument
  | AllocationFailure
  | StateError
  deriving DecidableEq, Repr

/-- How control leaves an entry point. -/
inductive Outcome where
  /-- The function returns the status code `rc` to its C caller. -/
  | returned (rc : OGVR_PluginReturnCode)
  /-- A C++ exception leaves the function and unwinds into the C caller. -/
  | propagated (e : Exn)
  /-- A null smart pointer is dereferenced (`operator->` on an empty `ConnectionPtr`). -/
  | nullDereference
  deriving DecidableEq, Repr

/-- What a call leaves behind: how it ended, what it stored through its out-parameter
(`none`: the out-parameter was never assigned; entry points without an out-parameter
always have `none`), and the program state. -/
structure Ret (σ : Type) where
  outcome : Outcome
  out : Option Handle
  world : σ
  deriving DecidableEq

/-- A collaborator operation: it either returns a value or raises, and leaves a state. -/
abbrev Eff (σ α : Type) := σ → Except Exn α × σ

/-! ## Collaborators as an interface -/

/-- The operations of other translation units that `DeviceInterfaceC.cpp` calls. -/
structure Env (σ : Type) where
  /-- PluginSpecificRegistrationContext::getName. -/
  getName : Ptr → σ → String
  /-- PluginSpecificRegistrationContext::getParent. -/
  getParent : Ptr → σ → Ptr
  /-- Connection::retrieveConnection, a `ConnectionPtr` that may be empty. -/
  retrieveConnection : Ptr → σ → Option Ptr
  /-- Connection::registerMessageType, returning an owning `MessageTypePtr`. -/
  registerMessageType : Ptr → String → Eff σ (Option Ptr)
  /-- The function plugin::registerObjectForDeletion(ctx, obj), returning the handle. -/
  registerObjectForDeletion : Ptr → Option Ptr → Eff σ Handle
  /-- DeviceToken::createSyncDevice(qualifiedName, conn), an owning `DeviceTokenPtr`. -/
  createSyncDevice : String → Ptr → Eff σ (Option Ptr)
  /-- DeviceToken::createAsyncDevice(qualifiedName, conn), an owning `DeviceTokenPtr`. -/
  createAsyncDevice : String → Ptr → Eff σ (Option Ptr)
  /-- DeviceToken::sendData(msgType, bytestream, len). -/
  sendData : Ptr → Ptr → List Nat → Nat → Eff σ Unit
  /-- DeviceToken::asSyncDevice, null unless the token is synchronous. -/
  asSyncDevice : Ptr → σ → Option Ptr
  /-- DeviceToken::asAsyncDevice, null unless the token is asynchronous. -/
  asAsyncDevice : Ptr → σ → Option Ptr
  /-- SyncDeviceToken::setUpdateCallback(std::bind(updateCallback, userData)). -/
  setUpdateCallback : Ptr → Callback → UserData → Eff σ Unit
  /-- AsyncDeviceToken::setWaitCallback(waitCallback, userData). -/
  setWaitCallback : Ptr → Callback → UserData → Eff σ Unit
  /-- The expression `delete obj`, run by a `unique_ptr` that still owns `obj`. -/
  destroy : Ptr → σ → σ

/-- An owning smart pointer (`DeviceTokenPtr`, `MessageTypePtr`): the address it owns,
`none` when it is empty. -/
abbrev UniquePtr := Option Ptr

/-- The call `p.release()`: yields the raw pointer and leaves `p` empty. -/
def UniquePtr.release (p : UniquePtr) : Option Ptr × UniquePtr := (p, none)

/-- The destructor of a smart pointer at scope exit: deletes what it still owns. -/
def UniquePtr.scopeExit {σ : Type} (E : Env σ) (p : UniquePtr) (w : σ) : σ :=
  match p with
  | none => w
  | some a => E.destroy a w

/-! ## The entry points -/

open OGVR_PluginReturnCode

/-- Modelled from the spec: the macro `OGVR_PLUGIN_HANDLE_NULL_CONTEXT(FUNC, CONTEXT_NAME)`
of `HandleNullContext.h`, which is not among the sources. The design document says that
null-handle arguments are rejected before any dereference, yielding Failure: when
`CONTEXT_NAME` is null the enclosing function returns `OGVR_PLUGIN_FAILURE` on the spot,
otherwise it goes on with `rest`. -/
def OGVR_PLUGIN_HANDLE_NULL_CONTEXT {σ : Type} (CONTEXT_NAME : Handle) (w : σ)
    (rest : Ptr → Ret σ) : Ret σ :=
  match CONTEXT_NAME with
  | none => ⟨.returned OGVR_PLUGIN_FAILURE, none, w⟩
  | some p => rest p

/-- The function `ogvrDeviceSendData(dev, msg, bytestream, len)`. -/
def ogvrDeviceSendData {σ : Type} (E : Env σ) (dev : OGVR_DeviceToken)
    (msg : OGVR_MessageType) (bytestream : List Nat) (len : Nat) (w : σ) : Ret σ :=
  OGVR_PLUGIN_HANDLE_NULL_CONTEXT dev w fun device =>
  OGVR_PLUGIN_HANDLE_NULL_CONTEXT msg w fun msgType =>
  match E.sendData device msgType bytestream len w with
  | (.error e, w1) => ⟨.propagated e, none, w1⟩
  | (.ok (), w1) => ⟨.returned OGVR_PLUGIN_SUCCESS, none, w1⟩

/-- The function `ogvrDeviceRegisterMessageType(ctx, name, msgtype)`. The connection is
dereferenced without a test; `ret.release()` is evaluated before
`registerObjectForDeletion` is entered, so `ret` is empty on every way out of the `try`. -/
def ogvrDeviceRegisterMessageType {σ : Type} (E : Env σ) (ctx : OGVR_PluginRegContext)
    (name : String) (w : σ) : Ret σ :=
  OGVR_PLUGIN_HANDLE_NULL_CONTEXT ctx w fun context =>
  match E.retrieveConnection (E.getParent context w) w with
  | none => ⟨.nullDereference, none, w⟩
  | some conn =>
    match E.registerMessageType conn name w with
    | (.error e, w1) => ⟨.propagated e, none, w1⟩
    | (.ok ret, w1) =>
      let (raw, ret1) := UniquePtr.release ret
      match E.registerObjectForDeletion context raw w1 with
      | (.ok h, w2) => ⟨.returned OGVR_PLUGIN_SUCCESS, some h, UniquePtr.scopeExit E ret1 w2⟩
      | (.error _, w2) => ⟨.returned OGVR_PLUGIN_FAILURE, none, UniquePtr.scopeExit E ret1 w2⟩

/-- The template `ogvrDeviceGenericInit(ctx, name, device, f)`; `ctx` has already been
tested by the caller. -/
def ogvrDeviceGenericInit {σ : Type} (E : Env σ) (ctx : Ptr) (name : String)
    (f : String → Ptr → Eff σ (Option Ptr)) (w : σ) : Ret σ :=
  let context := ctx
  let qualifiedName := E.getName context w ++ "/" ++ name
  let overallContext := E.getParent context w
  match E.retrieveConnection overallContext w with
  | none => ⟨.returned OGVR_PLUGIN_FAILURE, none, w⟩
  | some conn =>
    match f qualifiedName conn w with
    | (.error e, w1) => ⟨.propagated e, none, w1⟩
    | (.ok dev, w1) =>
      match dev with
      | none => ⟨.returned OGVR_PLUGIN_FAILURE, none, UniquePtr.scopeExit E dev w1⟩
      | some _ =>
        let (raw, dev1) := UniquePtr.release dev
        match E.registerObjectForDeletion ctx raw w1 with
        | (.ok h, w2) =>
          ⟨.returned OGVR_PLUGIN_SUCCESS, some h, UniquePtr.scopeExit E dev1 w2⟩
        | (.error _, w2) =>
          ⟨.returned OGVR_PLUGIN_FAILURE, none, UniquePtr.scopeExit E dev1 w2⟩

/-- The function `ogvrDeviceSyncInit(ctx, name, device)`. -/
def ogvrDeviceSyncInit {σ : Type} (E : Env σ) (ctx : OGVR_PluginRegContext)
    (name : String) (w : σ) : Ret σ :=
  OGVR_PLUGIN_HANDLE_NULL_CONTEXT ctx w fun c =>
  ogvrDeviceGenericInit E c name E.createSyncDevice w

/-- The function `ogvrDeviceSyncRegisterUpdateCallback(device, updateCallback, userData)`. -/
def ogvrDeviceSyncRegisterUpdateCallback {σ : Type} (E : Env σ) (device : OGVR_DeviceToken)
    (updateCallback : Callback) (userData : UserData) (w : σ) : Ret σ :=
  OGVR_PLUGIN_HANDLE_NULL_CONTEXT device w fun d =>
  match E.asSyncDevice d w with
  | none => ⟨.returned OGVR_PLUGIN_FAILURE, none, w⟩
  | some syncdev =>
    match E.setUpdateCallback syncdev updateCallback userData w with
    | (.error e, w1) => ⟨.propagated e, none, w1⟩
    | (.ok (), w1) => ⟨.returned OGVR_PLUGIN_SUCCESS, none, w1⟩

/-- The function `ogvrDeviceAsyncInit(ctx, name, device)`. -/
def ogvrDeviceAsyncInit {σ : Type} (E : Env σ) (ctx : OGVR_PluginRegContext)
    (name : String) (w : σ) : Ret σ :=
  OGVR_PLUGIN_HANDLE_NULL_CONTEXT ctx w fun c =>
  ogvrDeviceGenericInit E c name E.createAsyncDevice w

/-- The function `ogvrDeviceAsyncStartWaitLoop(device, waitCallback, userData)`. -/
def ogvrDeviceAsyncStartWaitLoop {σ : Type} (E : Env σ) (device : OGVR_DeviceToken)
    (waitCallback : Callback) (userData : UserData) (w : σ) : Ret σ :=
  OGVR_PLUGIN_HANDLE_NULL_CONTEXT device w fun d =>
  match E.asAsyncDevice d w with
  | none => ⟨.returned OGVR_PLUGIN_FAILURE, none, w⟩
  | some asyncdev =>
    match E.setWaitCallback asyncdev waitCallback userData w with
    | (.error e, w1) => ⟨.propagated e, none, w1⟩
    | (.ok (), w1) => ⟨.returned OGVR_PLUGIN_SUCCESS, none, w1⟩

/-! ## A concrete program state, modelled from the design document -/

/-- The life cycle of the background loop of an asynchronous token. -/
inductive LoopState where
  | Created
  | Running
  | StopRequested
  | Stopped
  deriving DecidableEq, Repr

/-- The two execution models of a device token with what each one holds: a synchronous
token its update callback, an asynchronous token its wait callback and its loop state.
A stored callback is the function pointer together with its user data. -/
inductive Variant where
  | Synchronous (updateCallback : Option (Callback × UserData))
  | Asynchronous (waitCallback : Option (Callback × UserData)) (loop : LoopState)
  deriving DecidableEq, Repr

/-- What a Connection does when a name is registered that its registry already holds.
The design document leaves the choice open between returning the existing descriptor and
rejecting the call; `freshDescriptor` is the reading under which every call hands out a
descriptor of its own, as the owning return type `MessageTypePtr` suggests. -/
inductive DuplicatePolicy where
  | returnExisting
  | freshDescriptor
  | reject
  deriving DecidableEq, Repr

/-- One line of the message-type registry of a Connection. -/
structure RegistryEntry where
  name : String
  id : Nat
  descriptor : Ptr
  deriving DecidableEq, Repr

/-- The objects of the device subsystem. -/
inductive Obj where
  /-- A per-plugin context: its plugin name, the overall context above it, whether it still
  accepts registrations, and the objects registered with it for deletion. -/
  | pluginContext (name : String) (parent : Ptr) (valid : Bool) (deletables : List Ptr)
  /-- The overall registration context with the Connection attached to it, if any. -/
  | registrationContext (connection : Option Ptr)
  /-- A Connection with its message-type registry. -/
  | connection (registry : List RegistryEntry) (onDuplicate : DuplicatePolicy)
  /-- A message-type descriptor: its name and its host-assigned numeric id. -/
  | messageType (name : String) (id : Nat)
  /-- A device token: qualified name, owning Connection, execution model. -/
  | deviceToken (qualifiedName : String) (connection : Ptr) (variant : Variant)
  deriving DecidableEq, Repr

/-- One tuple handed to the delivery sink (the timestamp is left out). -/
structure Delivery where
  device : String
  connection : Ptr
  messageType : Ptr
  payload : List Nat
  len : Nat
  deriving DecidableEq, Repr

/-- The program state: the heap (the object at address `p` is `heap[p]`, `none` once it
has been destroyed), the number of objects the allocator can hold, and what has reached
the delivery sink so far. -/
structure World where
  heap : List (Option Obj)
  capacity : Nat
  sink : List Delivery
  deriving DecidableEq, Repr

/-- The live object at an address, if there is one. -/
def World.obj (w : World) (p : Ptr) : Option Obj := w.heap.getD p none

/-- Overwrites the object at an address. -/
def World.store (w : World) (p : Ptr) (o : Obj) : World :=
  { w with heap := w.heap.set p (some o) }

/-- The expression `new T(...)`: the object is placed at the next free address; raises
when the allocator is exhausted. -/
def World.alloc (w : World) (o : Obj) : Except Exn (Option Ptr) × World :=
  if w.heap.length < w.capacity then
    (.ok (some w.heap.length), { w with heap := w.heap ++ [some o] })
  else
    (.error .AllocationFailure, w)

/-- The expression `delete p`. -/
def World.destroy (p : Ptr) (w : World) : World :=
  { w with heap := w.heap.set p none }

/-- The objects registered for deletion with the plugin context at `ctx`. -/
def World.deletables (w : World) (ctx : Ptr) : List Ptr :=
  match w.obj ctx with
  | some (.pluginContext _ _ _ ds) => ds
  | _ => []

/-- An object is leaked when it is alive and no plugin context in the heap holds it for
deletion. -/
def World.leaked (w : World) (p : Ptr) : Bool :=
  (w.obj p).isSome && !(List.range w.heap.length).any fun c => (w.deletables c).contains p

/-- Modelled from the spec: PluginSpecificRegistrationContext::getName. -/
def PluginSpecificRegistrationContext.getName (ctx : Ptr) (w : World) : String :=
  match w.obj ctx with
  | some (.pluginContext n _ _ _) => n
  | _ => ""

/-- Modelled from the spec: PluginSpecificRegistrationContext::getParent. -/
def PluginSpecificRegistrationContext.getParent (ctx : Ptr) (w : World) : Ptr :=
  match w.obj ctx with
  | some (.pluginContext _ parent _ _) => parent
  | _ => ctx

/-- Modelled from the spec: Connection::retrieveConnection "fails by returning a
null/absent reference if no Connection has been attached to that context". -/
def Connection.retrieveConnection (parent : Ptr) (w : World) : Option Ptr :=
  match w.obj parent with
  | some (.registrationContext c) => c
  | _ => none

/-- Modelled from the spec: Connection::registerMessageType. "Input: non-empty name string.
Error: fails with RegistrationError if the underlying connection is unavailable or name is
invalid. Side effect: inserts into the shared registry; subsequent lookups by name must
return the same identity." A new name gets the next id and a new descriptor; a name
already present is treated by the policy of the Connection, and a descriptor handed out
for it always carries the id first assigned to the name. -/
def Connection.registerMessageType (conn : Ptr) (name : String) (w : World) :
    Except Exn (Option Ptr) × World :=
  match w.obj conn with
  | some (.connection registry onDuplicate) =>
    if name = "" then (.error .RegistrationError, w)
    else
      match registry.find? fun e => e.name == name with
      | none =>
        match w.alloc (.messageType name registry.length) with
        | (.ok (some p), w1) =>
          (.ok (some p),
            w1.store conn (.connection (registry ++ [⟨name, registry.length, p⟩]) onDuplicate))
        | r => r
      | some e =>
        match onDuplicate with
        | .returnExisting => (.ok (some e.descriptor), w)
        | .freshDescriptor => w.alloc (.messageType name e.id)
        | .reject => (.error .RegistrationError, w)
  | _ => (.error .RegistrationError, w)

/-- Modelled from the spec: plugin::registerObjectForDeletion, the "bookkeeping arena that
merely stores pointers for later deletion". "Postcondition: the PluginContext becomes sole
owner"; "Error: if registration fails (e.g., invalid context)". The handle returned is the
address of the object. -/
def registerObjectForDeletion (ctx : Ptr) (obj : Option Ptr) (w : World) :
    Except Exn Handle × World :=
  match w.obj ctx with
  | some (.pluginContext n parent true ds) =>
    match obj with
    | some p => (.ok (some p), w.store ctx (.pluginContext n parent true (ds ++ [p])))
    | none => (.ok none, w)
  | _ => (.error .RegistrationError, w)

/-- Modelled from the spec: DeviceToken::createSyncDevice, the factory keyed to the
synchronous execution model; the token starts without an update callback. -/
def DeviceToken.createSyncDevice (qualifiedName : String) (conn : Ptr) (w : World) :
    Except Exn (Option Ptr) × World :=
  w.alloc (.deviceToken qualifiedName conn (.Synchronous none))

/-- Modelled from the spec: DeviceToken::createAsyncDevice, the factory keyed to the
asynchronous execution model; the token starts in state Created without a wait callback. -/
def DeviceToken.createAsyncDevice (qualifiedName : String) (conn : Ptr) (w : World) :
    Except Exn (Option Ptr) × World :=
  w.alloc (.deviceToken qualifiedName conn (.Asynchronous none .Created))

/-- Modelled from the spec: DeviceToken::sendData "fails with InvalidArgument if messageType
or the token itself is null/unregistered. Side effect: forwards a (messageType,
timestamp=now, payload) tuple to the Connection's delivery path." -/
def DeviceToken.sendData (dev msgType : Ptr) (bytestream : List Nat) (len : Nat)
    (w : World) : Except Exn Unit × World :=
  match w.obj dev, w.obj msgType with
  | some (.deviceToken q c _), some (.messageType _ _) =>
    (.ok (), { w with sink := w.sink ++ [⟨q, c, msgType, bytestream, len⟩] })
  | _, _ => (.error .InvalidArgument, w)

/-- Modelled from the spec: DeviceToken::asSyncDevice returns "a non-null view only if the
token's variant matches; otherwise null". -/
def DeviceToken.asSyncDevice (dev : Ptr) (w : World) : Option Ptr :=
  match w.obj dev with
  | some (.deviceToken _ _ (.Synchronous _)) => some dev
  | _ => none

/-- Modelled from the spec: DeviceToken::asAsyncDevice returns "a non-null view only if the
token's variant matches; otherwise null". -/
def DeviceToken.asAsyncDevice (dev : Ptr) (w : World) : Option Ptr :=
  match w.obj dev with
  | some (.deviceToken _ _ (.Asynchronous _ _)) => some dev
  | _ => none

/-- Modelled from the spec: SyncDeviceToken::setUpdateCallback "stores exactly one callback
(last writer wins ...)". -/
def SyncDeviceToken.setUpdateCallback (dev : Ptr) (cb : Callback) (userData : UserData)
    (w : World) : Except Exn Unit × World :=
  match w.obj dev with
  | some (.deviceToken q c (.Synchronous _)) =>
    (.ok (), w.store dev (.deviceToken q c (.Synchronous (some (cb, userData)))))
  | _ => (.error .InvalidArgument, w)

/-- Modelled from the spec: AsyncDeviceToken::setWaitCallback "must only be called in
Created state; calling it twice, or after the loop has started, is an error"; the
registering call starts the wait loop, "Created→Running". -/
def AsyncDeviceToken.setWaitCallback (dev : Ptr) (cb : Callback) (userData : UserData)
    (w : World) : Except Exn Unit × World :=
  match w.obj dev with
  | some (.deviceToken q c (.Asynchronous none .Created)) =>
    (.ok (), w.store dev (.deviceToken q c (.Asynchronous (some (cb, userData)) .Running)))
  | _ => (.error .StateError, w)

/-- The collaborators as the design document describes them. -/
def specEnv : Env World where
  getName := PluginSpecificRegistrationContext.getName
  getParent := PluginSpecificRegistrationContext.getParent
  retrieveConnection := Connection.retrieveConnection
  registerMessageType := Connection.registerMessageType
  registerObjectForDeletion := registerObjectForDeletion
  createSyncDevice := DeviceToken.createSyncDevice
  createAsyncDevice := DeviceToken.createAsyncDevice
  sendData := DeviceToken.sendData
  asSyncDevice := DeviceToken.asSyncDevice
  asAsyncDevice := DeviceToken.asAsyncDevice
  setUpdateCallback := SyncDeviceToken.setUpdateCallback
  setWaitCallback := AsyncDeviceToken.setWaitCallback
  destroy := World.destroy

/-! ## Sample states -/

/-- A host with one plugin: the overall context at address 0 with the Connection at
address 1 attached, the context of plugin "com.example.tracker" at address 2, a
synchronous token at 3, an asynchronous token (Created) at 4, a message type at 5 and an
asynchronous token whose loop is Running at 6. -/
def sampleWorld : World where
  heap := [
    some (.registrationContext (some 1)),
    some (.connection [⟨"pose", 0, 5⟩] .freshDescriptor),
    some (.pluginContext "com.example.tracker" 0 true [3, 4, 5, 6]),
    some (.deviceToken "com.example.tracker/head" 1 (.Synchronous none)),
    some (.deviceToken "com.example.tracker/hand" 1 (.Asynchronous none .Created)),
    some (.messageType "pose" 0),
    some (.deviceToken "com.example.tracker/wand" 1 (.Asynchronous (some (11, 12)) .Running))]
  capacity := 16
  sink := []

/-- A host whose overall context (address 0) has no Connection attached; the context of
plugin "com.example.tracker" is at address 1. -/
def orphanWorld : World where
  heap := [
    some (.registrationContext none),
    some (.pluginContext "com.example.tracker" 0 true [])]
  capacity := 16
  sink := []

/-- A host (overall context 0, Connection 1 with the given duplicate policy and an empty
registry) and the context of plugin "com.example.tracker" at address 2, which accepts
registrations when `valid` holds. The allocator has room for `room` more objects. -/
def hostWorld (onDuplicate : DuplicatePolicy) (valid : Bool) (room : Nat) : World where
  heap := [
    some (.registrationContext (some 1)),
    some (.connection [] onDuplicate),
    some (.pluginContext "com.example.tracker" 0 valid [])]
  capacity := 3 + room
  sink := []

theorem World.obj_lt {w : World} {p : Ptr} {o : Obj} (h : w.obj p = some o) :
    p < w.heap.length := by
  by_contra hlt
  have hnone : w.heap[p]? = none := List.getElem?_eq_none (Nat.le_of_not_lt hlt)
  simp [World.obj, List.getD_eq_getElem?_getD, hnone] at h

theorem World.obj_store_self {w : World} {p : Ptr} {o : Obj} (o1 : Obj)
    (h : w.obj p = some o) : (w.store p o1).obj p = some o1 := by
  have hlt := World.obj_lt h
  simp [World.obj, World.store, List.getD_eq_getElem?_getD, List.getElem?_set, hlt]

theorem World.obj_store_other (w : World) {p r : Ptr} (o1 : Obj) (h : r ≠ p) :
    (w.store p o1).obj r = w.obj r := by
  simp [World.obj, World.store, List.getD_eq_getElem?_getD, List.getElem?_set, Ne.symm h]

/-! ## Null handles -/

/-- C1: each of the six entry points, given a null handle (for `ogvrDeviceSendData` a null
device token or a null message type), returns Failure, leaves the program state exactly as
it was and assigns no out-parameter; this holds for every value of the other arguments,
every collaborator behaviour and every program state. -/
theorem null_handle_returns_failure_without_effect {σ : Type} (E : Env σ) (w : σ)
    (dev : OGVR_DeviceToken) (msg : OGVR_MessageType) (bytestream : List Nat) (len : Nat)
    (name : String) (cb : Callback) (userData : UserData) :
    ogvrDeviceSendData E none msg bytestream len w
        = ⟨.returned OGVR_PLUGIN_FAILURE, none, w⟩ ∧
    ogvrDeviceSendData E dev none bytestream len w
        = ⟨.returned OGVR_PLUGIN_FAILURE, none, w⟩ ∧
    ogvrDeviceRegisterMessageType E none name w
        = ⟨.returned OGVR_PLUGIN_FAILURE, none, w⟩ ∧
    ogvrDeviceSyncInit E none name w
        = ⟨.returned OGVR_PLUGIN_FAILURE, none, w⟩ ∧
    ogvrDeviceSyncRegisterUpdateCallback E none cb userData w
        = ⟨.returned OGVR_PLUGIN_FAILURE, none, w⟩ ∧
    ogvrDeviceAsyncInit E none name w
        = ⟨.returned OGVR_PLUGIN_FAILURE, none, w⟩ ∧
    ogvrDeviceAsyncStartWaitLoop E none cb userData w
        = ⟨.returned OGVR_PLUGIN_FAILURE, none, w⟩ := by
  refine ⟨rfl, ?_, rfl, rfl, rfl, rfl, rfl⟩
  cases dev <;> rfl

/-! ## Sending data -/

/-- C2: for a device token and a message type that are live objects and any payload,
`ogvrDeviceSendData` returns Success and exactly one tuple reaches the delivery path, sent
by that token and carrying that message type, the same bytes and the same length; nothing
else in the program state changes. Whatever the token does with the data, the entry point
hands it over in one `sendData` call on that token with the arguments unmodified, and
returns Success once that call returns. -/
theorem sendData_forwards_exactly_one_send {σ : Type} (E : Env σ) (s : σ) (w : World)
    (dev msg : Ptr) (bytestream : List Nat) (len : Nat)
    (q : String) (c : Ptr) (v : Variant) (n : String) (id : Nat)
    (hdev : w.obj dev = some (.deviceToken q c v))
    (hmsg : w.obj msg = some (.messageType n id)) :
    ogvrDeviceSendData specEnv (some dev) (some msg) bytestream len w
        = ⟨.returned OGVR_PLUGIN_SUCCESS, none,
            { w with sink := w.sink ++ [⟨q, c, msg, bytestream, len⟩] }⟩ ∧
    (ogvrDeviceSendData E (some dev) (some msg) bytestream len s).world
        = (E.sendData dev msg bytestream len s).2 ∧
    ((E.sendData dev msg bytestream len s).1 = .ok () →
      (ogvrDeviceSendData E (some dev) (some msg) bytestream len s).outcome
        = .returned OGVR_PLUGIN_SUCCESS) := by
  refine ⟨?_, ?_, ?_⟩
  · simp [ogvrDeviceSendData, OGVR_PLUGIN_HANDLE_NULL_CONTEXT, specEnv,
      DeviceToken.sendData, hdev, hmsg]
  · simp only [ogvrDeviceSendData, OGVR_PLUGIN_HANDLE_NULL_CONTEXT]
    rcases E.sendData dev msg bytestream len s with ⟨r, s1⟩
    cases r <;> rfl
  · simp only [ogvrDeviceSendData, OGVR_PLUGIN_HANDLE_NULL_CONTEXT]
    rcases E.sendData dev msg bytestream len s with ⟨r, s1⟩
    cases r <;> simp

/-- C2 on the sample state: the synchronous token at address 3 sends two bytes of the
message type at address 5. -/
theorem sendData_forwards_exactly_one_send_witness :
    (sampleWorld.obj 3 = some (.deviceToken "com.example.tracker/head" 1 (.Synchronous none)) ∧
      sampleWorld.obj 5 = some (.messageType "pose" 0)) ∧
    ogvrDeviceSendData specEnv (some 3) (some 5) [104, 105] 2 sampleWorld
        = ⟨.returned OGVR_PLUGIN_SUCCESS, none,
            { sampleWorld with
              sink := sampleWorld.sink ++ [⟨"com.example.tracker/head", 1, 5, [104, 105], 2⟩] }⟩ :=
  ⟨⟨by decide, by decide⟩,
    (sendData_forwards_exactly_one_send specEnv sampleWorld sampleWorld 3 5 [104, 105] 2
      "com.example.tracker/head" 1 (.Synchronous none) "pose" 0 (by decide) (by decide)).1⟩

/-! ## Capability narrowing -/

/-- C3 as stated fails on an Asynchronous token that has left state Created. The token at
address 4 of `sampleWorld` is Asynchronous and Created; a first
`ogvrDeviceAsyncStartWaitLoop` with callback 21 and userData 22 succeeds and leaves it
Running with that callback. A second call on the same token, of the matching variant, with
callback 31 and userData 32 does not return Success and stores nothing: the token still
holds callback 21 with userData 22 and the whole state is as the first call left it. -/
theorem second_startWaitLoop_stores_nothing :
    sampleWorld.obj 4
        = some (.deviceToken "com.example.tracker/hand" 1 (.Asynchronous none .Created)) ∧
    (ogvrDeviceAsyncStartWaitLoop specEnv (some 4) 21 22 sampleWorld).outcome
        = .returned OGVR_PLUGIN_SUCCESS ∧
    (ogvrDeviceAsyncStartWaitLoop specEnv (some 4) 21 22 sampleWorld).world.obj 4
        = some (.deviceToken "com.example.tracker/hand" 1
            (.Asynchronous (some (21, 22)) .Running)) ∧
    (ogvrDeviceAsyncStartWaitLoop specEnv (some 4) 31 32
        (ogvrDeviceAsyncStartWaitLoop specEnv (some 4) 21 22 sampleWorld).world).outcome
        ≠ .returned OGVR_PLUGIN_SUCCESS ∧
    (ogvrDeviceAsyncStartWaitLoop specEnv (some 4) 31 32
        (ogvrDeviceAsyncStartWaitLoop specEnv (some 4) 21 22 sampleWorld).world).world
        = (ogvrDeviceAsyncStartWaitLoop specEnv (some 4) 21 22 sampleWorld).world ∧
    (ogvrDeviceAsyncStartWaitLoop specEnv (some 4) 31 32
        (ogvrDeviceAsyncStartWaitLoop specEnv (some 4) 21 22 sampleWorld).world).world.obj 4
        ≠ some (.deviceToken "com.example.tracker/hand" 1
            (.Asynchronous (some (31, 32)) .Running)) := by
  refine ⟨?_, ?_, ?_, ?_, ?_, ?_⟩ <;> decide

/-- C3 amended: a token is usable only as its own variant. On a Synchronous token
`ogvrDeviceAsyncStartWaitLoop` returns Failure and changes nothing; on an Asynchronous token
(in any loop state) `ogvrDeviceSyncRegisterUpdateCallback` returns Failure and changes
nothing. Conversely, on a Synchronous token `ogvrDeviceSyncRegisterUpdateCallback`, and on
an Asynchronous token that is still in state Created `ogvrDeviceAsyncStartWaitLoop`,
returns Success, and the token afterwards holds the supplied callback together with the
supplied userData (the loop of the Asynchronous token is then Running); every other
object is untouched. Whatever the collaborators are: a token that the narrowing accessor
refuses gets Failure with the state unchanged, and a token that it accepts gets the
supplied callback and userData passed to `setUpdateCallback`, respectively
`setWaitCallback`, with Success once that returns. -/
theorem token_usable_only_as_its_own_variant {σ : Type} (E : Env σ) (s : σ) (d : Ptr)
    (w : World) (dev : Ptr) (q : String) (c : Ptr) (cb : Callback) (userData : UserData) :
    (∀ u, w.obj dev = some (.deviceToken q c (.Synchronous u)) →
      ogvrDeviceAsyncStartWaitLoop specEnv (some dev) cb userData w
          = ⟨.returned OGVR_PLUGIN_FAILURE, none, w⟩ ∧
      ogvrDeviceSyncRegisterUpdateCallback specEnv (some dev) cb userData w
          = ⟨.returned OGVR_PLUGIN_SUCCESS, none,
              w.store dev (.deviceToken q c (.Synchronous (some (cb, userData))))⟩ ∧
      (w.store dev (.deviceToken q c (.Synchronous (some (cb, userData))))).obj dev
          = some (.deviceToken q c (.Synchronous (some (cb, userData)))) ∧
      ∀ p, p ≠ dev →
        (w.store dev (.deviceToken q c (.Synchronous (some (cb, userData))))).obj p
          = w.obj p) ∧
    (∀ k l, w.obj dev = some (.deviceToken q c (.Asynchronous k l)) →
      ogvrDeviceSyncRegisterUpdateCallback specEnv (some dev) cb userData w
          = ⟨.returned OGVR_PLUGIN_FAILURE, none, w⟩) ∧
    (w.obj dev = some (.deviceToken q c (.Asynchronous none .Created)) →
      ogvrDeviceAsyncStartWaitLoop specEnv (some dev) cb userData w
          = ⟨.returned OGVR_PLUGIN_SUCCESS, none,
              w.store dev (.deviceToken q c (.Asynchronous (some (cb, userData)) .Running))⟩ ∧
      (w.store dev (.deviceToken q c (.Asynchronous (some (cb, userData)) .Running))).obj dev
          = some (.deviceToken q c (.Asynchronous (some (cb, userData)) .Running)) ∧
      ∀ p, p ≠ dev →
        (w.store dev (.deviceToken q c (.Asynchronous (some (cb, userData)) .Running))).obj p
          = w.obj p) ∧
    (E.asAsyncDevice d s = none →
      ogvrDeviceAsyncStartWaitLoop E (some d) cb userData s
        = ⟨.returned OGVR_PLUGIN_FAILURE, none, s⟩) ∧
    (E.asSyncDevice d s = none →
      ogvrDeviceSyncRegisterUpdateCallback E (some d) cb userData s
        = ⟨.returned OGVR_PLUGIN_FAILURE, none, s⟩) ∧
    (∀ a s1, E.asSyncDevice d s = some a →
      E.setUpdateCallback a cb userData s = (.ok (), s1) →
      ogvrDeviceSyncRegisterUpdateCallback E (some d) cb userData s
        = ⟨.returned OGVR_PLUGIN_SUCCESS, none, s1⟩) ∧
    (∀ a s1, E.asAsyncDevice d s = some a →
      E.setWaitCallback a cb userData s = (.ok (), s1) →
      ogvrDeviceAsyncStartWaitLoop E (some d) cb userData s
        = ⟨.returned OGVR_PLUGIN_SUCCESS, none, s1⟩) := by
  refine ⟨fun u hS => ⟨?_, ?_, World.obj_store_self _ hS,
      fun p hp => World.obj_store_other w _ hp⟩,
    fun k l hA => ?_,
    fun hC => ⟨?_, World.obj_store_self _ hC, fun p hp => World.obj_store_other w _ hp⟩,
    fun h => by simp [ogvrDeviceAsyncStartWaitLoop, OGVR_PLUGIN_HANDLE_NULL_CONTEXT, h],
    fun h => by simp [ogvrDeviceSyncRegisterUpdateCallback, OGVR_PLUGIN_HANDLE_NULL_CONTEXT, h],
    fun a s1 h h1 => by
      simp [ogvrDeviceSyncRegisterUpdateCallback, OGVR_PLUGIN_HANDLE_NULL_CONTEXT, h, h1],
    fun a s1 h h1 => by
      simp [ogvrDeviceAsyncStartWaitLoop, OGVR_PLUGIN_HANDLE_NULL_CONTEXT, h, h1]⟩
  · simp [ogvrDeviceAsyncStartWaitLoop, OGVR_PLUGIN_HANDLE_NULL_CONTEXT, specEnv,
      DeviceToken.asAsyncDevice, hS]
  · simp [ogvrDeviceSyncRegisterUpdateCallback, OGVR_PLUGIN_HANDLE_NULL_CONTEXT, specEnv,
      DeviceToken.asSyncDevice, SyncDeviceToken.setUpdateCallback, hS]
  · simp [ogvrDeviceSyncRegisterUpdateCallback, OGVR_PLUGIN_HANDLE_NULL_CONTEXT, specEnv,
      DeviceToken.asSyncDevice, hA]
  · simp [ogvrDeviceAsyncStartWaitLoop, OGVR_PLUGIN_HANDLE_NULL_CONTEXT, specEnv,
      DeviceToken.asAsyncDevice, AsyncDeviceToken.setWaitCallback, hC]

/-- C3 amended, on the sample state: the synchronous token at address 3 (mismatch and
match), the running asynchronous token at address 6 (mismatch) and the asynchronous token
in state Created at address 4 (match). -/
theorem token_usable_only_as_its_own_variant_witness :
    (sampleWorld.obj 3 = some (.deviceToken "com.example.tracker/head" 1 (.Synchronous none)) ∧
      sampleWorld.obj 6
        = some (.deviceToken "com.example.tracker/wand" 1 (.Asynchronous (some (11, 12)) .Running)) ∧
      sampleWorld.obj 4
        = some (.deviceToken "com.example.tracker/hand" 1 (.Asynchronous none .Created))) ∧
    ogvrDeviceAsyncStartWaitLoop specEnv (some 3) 21 22 sampleWorld
        = ⟨.returned OGVR_PLUGIN_FAILURE, none, sampleWorld⟩ ∧
    ogvrDeviceSyncRegisterUpdateCallback specEnv (some 3) 21 22 sampleWorld
        = ⟨.returned OGVR_PLUGIN_SUCCESS, none,
            sampleWorld.store 3
              (.deviceToken "com.example.tracker/head" 1 (.Synchronous (some (21, 22))))⟩ ∧
    ogvrDeviceSyncRegisterUpdateCallback specEnv (some 6) 21 22 sampleWorld
        = ⟨.returned OGVR_PLUGIN_FAILURE, none, sampleWorld⟩ ∧
    ogvrDeviceAsyncStartWaitLoop specEnv (some 4) 21 22 sampleWorld
        = ⟨.returned OGVR_PLUGIN_SUCCESS, none,
            sampleWorld.store 4
              (.deviceToken "com.example.tracker/hand" 1
                (.Asynchronous (some (21, 22)) .Running))⟩ :=
  have h3 := (token_usable_only_as_its_own_variant specEnv sampleWorld 3 sampleWorld 3
    "com.example.tracker/head" 1 21 22).1 none (by decide)
  have h6 := (token_usable_only_as_its_own_variant specEnv sampleWorld 6 sampleWorld 6
    "com.example.tracker/wand" 1 21 22).2.1 (some (11, 12)) .Running (by decide)
  have h4 := (token_usable_only_as_its_own_variant specEnv sampleWorld 4 sampleWorld 4
    "com.example.tracker/hand" 1 21 22).2.2.1 (by decide)
  ⟨⟨by decide, by decide, by decide⟩, h3.1, h3.2.1, h6, h4.1⟩

/-! ## A context without a Connection -/

/-- C4: evaluation of the message-type registration path on a context whose parent has no
Connection. For every name, `ogvrDeviceRegisterMessageType` does not return Failure: it
dereferences the empty `ConnectionPtr`. The device-creation path tests the same pointer
and returns Failure on the same context. -/
theorem registerMessageType_dereferences_absent_connection :
    Connection.retrieveConnection
        (PluginSpecificRegistrationContext.getParent 1 orphanWorld) orphanWorld = none ∧
    (∀ name : String,
      ogvrDeviceRegisterMessageType specEnv (some 1) name orphanWorld
        = ⟨.nullDereference, none, orphanWorld⟩) ∧
    (∀ name : String,
      (ogvrDeviceRegisterMessageType specEnv (some 1) name orphanWorld).outcome
        ≠ .returned OGVR_PLUGIN_FAILURE) ∧
    (∀ name : String,
      ogvrDeviceSyncInit specEnv (some 1) name orphanWorld
        = ⟨.returned OGVR_PLUGIN_FAILURE, none, orphanWorld⟩) := by
  refine ⟨by decide, fun name => rfl, fun name => ?_, fun name => rfl⟩
  show Outcome.nullDereference ≠ _
  decide

/-! ## Ownership hand-off when registration for deletion fails -/

/-- C5: evaluation of the three creating entry points on a plugin context that refuses the
registration for deletion. Each returns Failure without an out-parameter, and the object
just created (at address 3) is still alive and held by no plugin context: it has been
released from its smart pointer before the registration was attempted, and no `delete`
runs on any path, whatever `delete` would do. -/
theorem failed_registration_leaves_object_alive_without_owner :
    (∀ del : Ptr → World → World,
      ogvrDeviceSyncInit { specEnv with destroy := del } (some 2) "head"
          (hostWorld .freshDescriptor false 4)
        = ⟨.returned OGVR_PLUGIN_FAILURE, none,
            { hostWorld .freshDescriptor false 4 with
              heap := (hostWorld .freshDescriptor false 4).heap ++
                [some (.deviceToken "com.example.tracker/head" 1 (.Synchronous none))] }⟩) ∧
    (∀ del : Ptr → World → World,
      ogvrDeviceAsyncInit { specEnv with destroy := del } (some 2) "hand"
          (hostWorld .freshDescriptor false 4)
        = ⟨.returned OGVR_PLUGIN_FAILURE, none,
            { hostWorld .freshDescriptor false 4 with
              heap := (hostWorld .freshDescriptor false 4).heap ++
                [some (.deviceToken "com.example.tracker/hand" 1
                  (.Asynchronous none .Created))] }⟩) ∧
    (∀ del : Ptr → World → World,
      (ogvrDeviceRegisterMessageType { specEnv with destroy := del } (some 2) "pose"
          (hostWorld .freshDescriptor false 4)).outcome = .returned OGVR_PLUGIN_FAILURE ∧
      (ogvrDeviceRegisterMessageType { specEnv with destroy := del } (some 2) "pose"
          (hostWorld .freshDescriptor false 4)).world.obj 3
        = some (.messageType "pose" 0)) ∧
    (ogvrDeviceSyncInit specEnv (some 2) "head"
        (hostWorld .freshDescriptor false 4)).world.leaked 3 = true ∧
    (ogvrDeviceAsyncInit specEnv (some 2) "hand"
        (hostWorld .freshDescriptor false 4)).world.leaked 3 = true ∧
    (ogvrDeviceRegisterMessageType specEnv (some 2) "pose"
        (hostWorld .freshDescriptor false 4)).world.leaked 3 = true := by
  refine ⟨fun del => rfl, fun del => rfl, fun del => ⟨rfl, rfl⟩, ?_, ?_, ?_⟩ <;> decide

/-! ## Exceptions at the boundary -/

/-- C6: evaluation of the entry points when an internal step raises. Only an exception of
`registerObjectForDeletion` is turned into Failure. An exception raised by the token
factory, by `Connection::registerMessageType`, by `DeviceToken::sendData`, by
`setUpdateCallback` or by `setWaitCallback` leaves the entry point as an exception: the
call does not return a status at all. -/
theorem only_registerObjectForDeletion_is_guarded :
    (ogvrDeviceSyncInit specEnv (some 2) "head" (hostWorld .freshDescriptor true 0)).outcome
        = .propagated .AllocationFailure ∧
    (ogvrDeviceAsyncInit specEnv (some 2) "hand" (hostWorld .freshDescriptor true 0)).outcome
        = .propagated .AllocationFailure ∧
    (ogvrDeviceRegisterMessageType specEnv (some 2) "pose"
        (hostWorld .freshDescriptor true 0)).outcome = .propagated .AllocationFailure ∧
    (ogvrDeviceRegisterMessageType specEnv (some 2) ""
        (hostWorld .freshDescriptor true 4)).outcome = .propagated .RegistrationError ∧
    (∀ e : Exn,
      (ogvrDeviceSyncInit { specEnv with createSyncDevice := fun _ _ w => (.error e, w) }
          (some 2) "head" sampleWorld).outcome = .propagated e ∧
      (ogvrDeviceAsyncInit { specEnv with createAsyncDevice := fun _ _ w => (.error e, w) }
          (some 2) "hand" sampleWorld).outcome = .propagated e ∧
      (ogvrDeviceRegisterMessageType
          { specEnv with registerMessageType := fun _ _ w => (.error e, w) }
          (some 2) "pose" sampleWorld).outcome = .propagated e ∧
      (ogvrDeviceSendData { specEnv with sendData := fun _ _ _ _ w => (.error e, w) }
          (some 3) (some 5) [104, 105] 2 sampleWorld).outcome = .propagated e ∧
      (ogvrDeviceSyncRegisterUpdateCallback
          { specEnv with setUpdateCallback := fun _ _ _ w => (.error e, w) }
          (some 3) 21 22 sampleWorld).outcome = .propagated e ∧
      (ogvrDeviceAsyncStartWaitLoop
          { specEnv with setWaitCallback := fun _ _ _ w => (.error e, w) }
          (some 4) 21 22 sampleWorld).outcome = .propagated e ∧
      (ogvrDeviceSyncInit
          { specEnv with registerObjectForDeletion := fun _ _ w => (.error e, w) }
          (some 2) "head" sampleWorld).outcome = .returned OGVR_PLUGIN_FAILURE ∧
      (ogvrDeviceRegisterMessageType
          { specEnv with registerObjectForDeletion := fun _ _ w => (.error e, w) }
          (some 2) "pose" sampleWorld).outcome = .returned OGVR_PLUGIN_FAILURE) := by
  refine ⟨by decide, by decide, by decide, by decide, fun e => ?_⟩
  exact ⟨rfl, rfl, rfl, rfl, rfl, rfl, rfl, rfl⟩

/-! ## Unfolding the entry points on each path -/

theorem ogvrDeviceAsyncStartWaitLoop_async {σ : Type} (E : Env σ) (w : σ)
    (device asyncdev : Ptr) (waitCallback : Callback) (userData : UserData)
    (h : E.asAsyncDevice device w = some asyncdev) :
    (ogvrDeviceAsyncStartWaitLoop E (some device) waitCallback userData w).world
        = (E.setWaitCallback asyncdev waitCallback userData w).2 ∧
    ((E.setWaitCallback asyncdev waitCallback userData w).1 = .ok () →
      (ogvrDeviceAsyncStartWaitLoop E (some device) waitCallback userData w).outcome
        = .returned OGVR_PLUGIN_SUCCESS) ∧
    (ogvrDeviceAsyncStartWaitLoop E (some device) waitCallback userData w).outcome
        ≠ .returned OGVR_PLUGIN_FAILURE := by
  simp only [ogvrDeviceAsyncStartWaitLoop, OGVR_PLUGIN_HANDLE_NULL_CONTEXT, h]
  rcases E.setWaitCallback asyncdev waitCallback userData w with ⟨r, w1⟩
  cases r <;> simp

theorem ogvrDeviceGenericInit_no_connection {σ : Type} (E : Env σ) (ctx : Ptr)
    (name : String) (f : String → Ptr → Eff σ (Option Ptr)) (w : σ)
    (hc : E.retrieveConnection (E.getParent ctx w) w = none) :
    ogvrDeviceGenericInit E ctx name f w = ⟨.returned OGVR_PLUGIN_FAILURE, none, w⟩ := by
  simp [ogvrDeviceGenericInit, hc]

theorem ogvrDeviceGenericInit_factory_raises {σ : Type} (E : Env σ) (ctx : Ptr)
    (name : String) (f : String → Ptr → Eff σ (Option Ptr)) (w : σ) {conn : Ptr} {e : Exn}
    {w1 : σ} (hc : E.retrieveConnection (E.getParent ctx w) w = some conn)
    (hf : f (E.getName ctx w ++ "/" ++ name) conn w = (.error e, w1)) :
    ogvrDeviceGenericInit E ctx name f w = ⟨.propagated e, none, w1⟩ := by
  simp [ogvrDeviceGenericInit, hc, hf]

theorem ogvrDeviceGenericInit_factory_null {σ : Type} (E : Env σ) (ctx : Ptr)
    (name : String) (f : String → Ptr → Eff σ (Option Ptr)) (w : σ) {conn : Ptr}
    {w1 : σ} (hc : E.retrieveConnection (E.getParent ctx w) w = some conn)
    (hf : f (E.getName ctx w ++ "/" ++ name) conn w = (.ok none, w1)) :
    ogvrDeviceGenericInit E ctx name f w = ⟨.returned OGVR_PLUGIN_FAILURE, none, w1⟩ := by
  simp [ogvrDeviceGenericInit, hc, hf, UniquePtr.scopeExit]

theorem ogvrDeviceGenericInit_registered {σ : Type} (E : Env σ) (ctx : Ptr)
    (name : String) (f : String → Ptr → Eff σ (Option Ptr)) (w : σ) {conn dev : Ptr}
    {w1 w2 : σ} {h : Handle} (hc : E.retrieveConnection (E.getParent ctx w) w = some conn)
    (hf : f (E.getName ctx w ++ "/" ++ name) conn w = (.ok (some dev), w1))
    (hr : E.registerObjectForDeletion ctx (some dev) w1 = (.ok h, w2)) :
    ogvrDeviceGenericInit E ctx name f w = ⟨.returned OGVR_PLUGIN_SUCCESS, some h, w2⟩ := by
  simp [ogvrDeviceGenericInit, hc, hf, hr, UniquePtr.scopeExit, UniquePtr.release]

theorem ogvrDeviceGenericInit_refused {σ : Type} (E : Env σ) (ctx : Ptr)
    (name : String) (f : String → Ptr → Eff σ (Option Ptr)) (w : σ) {conn dev : Ptr}
    {w1 w2 : σ} {e : Exn} (hc : E.retrieveConnection (E.getParent ctx w) w = some conn)
    (hf : f (E.getName ctx w ++ "/" ++ name) conn w = (.ok (some dev), w1))
    (hr : E.registerObjectForDeletion ctx (some dev) w1 = (.error e, w2)) :
    ogvrDeviceGenericInit E ctx name f w = ⟨.returned OGVR_PLUGIN_FAILURE, none, w2⟩ := by
  simp [ogvrDeviceGenericInit, hc, hf, hr, UniquePtr.scopeExit, UniquePtr.release]

/-- What `ogvrDeviceGenericInit` returns, for any factory. -/
theorem ogvrDeviceGenericInit_cases {σ : Type} (E : Env σ) (ctx : Ptr) (name : String)
    (f : String → Ptr → Eff σ (Option Ptr)) (w : σ) :
    ((ogvrDeviceGenericInit E ctx name f w).outcome = .returned OGVR_PLUGIN_SUCCESS ↔
      ∃ conn dev w1 h w2,
        E.retrieveConnection (E.getParent ctx w) w = some conn ∧
        f (E.getName ctx w ++ "/" ++ name) conn w = (.ok (some dev), w1) ∧
        E.registerObjectForDeletion ctx (some dev) w1 = (.ok h, w2)) ∧
    (∀ conn dev w1 h w2,
      E.retrieveConnection (E.getParent ctx w) w = some conn →
      f (E.getName ctx w ++ "/" ++ name) conn w = (.ok (some dev), w1) →
      E.registerObjectForDeletion ctx (some dev) w1 = (.ok h, w2) →
      ogvrDeviceGenericInit E ctx name f w = ⟨.returned OGVR_PLUGIN_SUCCESS, some h, w2⟩) ∧
    ((ogvrDeviceGenericInit E ctx name f w).outcome ≠ .returned OGVR_PLUGIN_SUCCESS →
      (ogvrDeviceGenericInit E ctx name f w).out = none) ∧
    (E.retrieveConnection (E.getParent ctx w) w = none →
      ogvrDeviceGenericInit E ctx name f w = ⟨.returned OGVR_PLUGIN_FAILURE, none, w⟩) := by
  refine ⟨?_, fun conn dev w1 h w2 hc hf hr =>
      ogvrDeviceGenericInit_registered E ctx name f w hc hf hr, ?_,
    ogvrDeviceGenericInit_no_connection E ctx name f w⟩
  · constructor
    · intro hs
      cases hc : E.retrieveConnection (E.getParent ctx w) w with
      | none =>
        rw [ogvrDeviceGenericInit_no_connection E ctx name f w hc] at hs
        exact absurd hs (by simp)
      | some conn =>
        rcases hf : f (E.getName ctx w ++ "/" ++ name) conn w with ⟨r, w1⟩
        cases r with
        | error e =>
          rw [ogvrDeviceGenericInit_factory_raises E ctx name f w hc hf] at hs
          exact absurd hs (by simp)
        | ok dev =>
          cases dev with
          | none =>
            rw [ogvrDeviceGenericInit_factory_null E ctx name f w hc hf] at hs
            exact absurd hs (by simp)
          | some d =>
            rcases hr : E.registerObjectForDeletion ctx (some d) w1 with ⟨r2, w2⟩
            cases r2 with
            | error e =>
              rw [ogvrDeviceGenericInit_refused E ctx name f w hc hf hr] at hs
              exact absurd hs (by simp)
            | ok h => exact ⟨conn, d, w1, h, w2, rfl, hf, hr⟩
    · rintro ⟨conn, dev, w1, h, w2, hc, hf, hr⟩
      rw [ogvrDeviceGenericInit_registered E ctx name f w hc hf hr]
  · intro hs
    cases hc : E.retrieveConnection (E.getParent ctx w) w with
    | none => rw [ogvrDeviceGenericInit_no_connection E ctx name f w hc]
    | some conn =>
      rcases hf : f (E.getName ctx w ++ "/" ++ name) conn w with ⟨r, w1⟩
      cases r with
      | error e => rw [ogvrDeviceGenericInit_factory_raises E ctx name f w hc hf]
      | ok dev =>
        cases dev with
        | none => rw [ogvrDeviceGenericInit_factory_null E ctx name f w hc hf]
        | some d =>
          rcases hr : E.registerObjectForDeletion ctx (some d) w1 with ⟨r2, w2⟩
          cases r2 with
          | error e => rw [ogvrDeviceGenericInit_refused E ctx name f w hc hf hr]
          | ok h =>
            rw [ogvrDeviceGenericInit_registered E ctx name f w hc hf hr] at hs
            exact absurd rfl hs

/-! ## Restarting the wait loop -/

/-- C8: evaluation of a further `ogvrDeviceAsyncStartWaitLoop` on the Asynchronous token
of `sampleWorld` whose loop is already Running (address 6). `setWaitCallback` refuses the
call and the stored wait callback, userData and loop state stay as they were, but the
refusal leaves the entry point as an exception: Failure is not returned. Whatever
`setWaitCallback` does with the call, the entry point cannot return Failure on this
token, since the call is followed only by `return OGVR_PLUGIN_SUCCESS` and is not inside
a `try`. -/
theorem startWaitLoop_on_running_token_is_not_failure :
    sampleWorld.obj 6
      = some (.deviceToken "com.example.tracker/wand" 1
          (.Asynchronous (some (11, 12)) .Running)) ∧
    ogvrDeviceAsyncStartWaitLoop specEnv (some 6) 21 22 sampleWorld
      = ⟨.propagated .StateError, none, sampleWorld⟩ ∧
    ∀ swc : Ptr → Callback → UserData → Eff World Unit,
      (ogvrDeviceAsyncStartWaitLoop { specEnv with setWaitCallback := swc }
        (some 6) 21 22 sampleWorld).outcome ≠ .returned OGVR_PLUGIN_FAILURE :=
  ⟨by decide, by decide, fun swc =>
    (ogvrDeviceAsyncStartWaitLoop_async { specEnv with setWaitCallback := swc } sampleWorld
      6 6 21 22 rfl).2.2⟩

/-! ## Device creation in the concrete state -/

theorem World.alloc_ok (w : World) (o : Obj) (h : w.heap.length < w.capacity) :
    w.alloc o = (.ok (some w.heap.length), { w with heap := w.heap ++ [some o] }) := by
  simp [World.alloc, h]

theorem World.obj_append_self (w : World) (o : Obj) :
    ({ w with heap := w.heap ++ [some o] } : World).obj w.heap.length = some o := by
  simp [World.obj, List.getD_eq_getElem?_getD]

theorem World.obj_append_lt (w : World) (o : Obj) {p : Ptr} (h : p < w.heap.length) :
    ({ w with heap := w.heap ++ [some o] } : World).obj p = w.obj p := by
  simp [World.obj, List.getD_eq_getElem?_getD, List.getElem?_append_left h]

theorem registerObjectForDeletion_ok {ctx dev : Ptr} {w1 w2 : World} {h : Handle}
    (hr : registerObjectForDeletion ctx (some dev) w1 = (.ok h, w2)) :
    h = some dev ∧ w2.deletables ctx = w1.deletables ctx ++ [dev] := by
  unfold registerObjectForDeletion at hr
  split at hr
  · next n parent ds hobj =>
    simp only [Prod.mk.injEq, Except.ok.injEq] at hr
    obtain ⟨rfl, rfl⟩ := hr
    exact ⟨rfl, by simp [World.deletables, World.obj_store_self _ hobj, hobj]⟩
  · simp at hr

/-- The whole effect of `ogvrDeviceGenericInit` with an allocating factory in the concrete
state. -/
theorem ogvrDeviceGenericInit_specEnv (w : World) (ctx parent conn : Ptr) (P N : String)
    (valid : Bool) (ds : List Ptr) (v : Variant)
    (hctx : w.obj ctx = some (.pluginContext P parent valid ds))
    (hpar : w.obj parent = some (.registrationContext (some conn)))
    (hroom : w.heap.length < w.capacity) :
    ogvrDeviceGenericInit specEnv ctx N (fun q c w => w.alloc (.deviceToken q c v)) w =
      if valid then
        ⟨.returned OGVR_PLUGIN_SUCCESS, some (some w.heap.length),
          ({ w with heap := w.heap ++ [some (.deviceToken (P ++ "/" ++ N) conn v)] } : World).store
            ctx (.pluginContext P parent true (ds ++ [w.heap.length]))⟩
      else
        ⟨.returned OGVR_PLUGIN_FAILURE, none,
          { w with heap := w.heap ++ [some (.deviceToken (P ++ "/" ++ N) conn v)] }⟩ := by
  have hname : specEnv.getName ctx w = P := by
    simp [specEnv, PluginSpecificRegistrationContext.getName, hctx]
  have hc : specEnv.retrieveConnection (specEnv.getParent ctx w) w = some conn := by
    simp [specEnv, PluginSpecificRegistrationContext.getParent, Connection.retrieveConnection,
      hctx, hpar]
  have hf : (fun q c w => World.alloc w (.deviceToken q c v))
      (specEnv.getName ctx w ++ "/" ++ N) conn w
      = (.ok (some w.heap.length),
          { w with heap := w.heap ++ [some (.deviceToken (P ++ "/" ++ N) conn v)] }) := by
    simp only [hname]
    exact World.alloc_ok w _ hroom
  have hobj : ({ w with heap := w.heap ++ [some (.deviceToken (P ++ "/" ++ N) conn v)] }
      : World).obj ctx = some (.pluginContext P parent valid ds) := by
    rw [World.obj_append_lt w _ (World.obj_lt hctx)]
    exact hctx
  cases valid with
  | true =>
    refine ogvrDeviceGenericInit_registered specEnv ctx N _ w hc hf ?_
    simp [specEnv, registerObjectForDeletion, hobj]
  | false =>
    refine ogvrDeviceGenericInit_refused specEnv ctx N _ w (e := .RegistrationError) hc hf ?_
    simp [specEnv, registerObjectForDeletion, hobj]

/-- What the concrete state looks like after `ogvrDeviceGenericInit` with an allocating
factory: one more object, the token, and only the plugin context touched besides. -/
theorem ogvrDeviceGenericInit_specEnv_world (w : World) (ctx parent conn : Ptr)
    (P N : String) (valid : Bool) (ds : List Ptr) (v : Variant)
    (hctx : w.obj ctx = some (.pluginContext P parent valid ds))
    (hpar : w.obj parent = some (.registrationContext (some conn)))
    (hroom : w.heap.length < w.capacity) :
    (ogvrDeviceGenericInit specEnv ctx N (fun q c w => w.alloc (.deviceToken q c v)) w
      ).world.heap.length = w.heap.length + 1 ∧
    (ogvrDeviceGenericInit specEnv ctx N (fun q c w => w.alloc (.deviceToken q c v)) w
      ).world.obj w.heap.length = some (.deviceToken (P ++ "/" ++ N) conn v) ∧
    (∀ p, p < w.heap.length → p ≠ ctx →
      (ogvrDeviceGenericInit specEnv ctx N (fun q c w => w.alloc (.deviceToken q c v)) w
        ).world.obj p = w.obj p) ∧
    (ogvrDeviceGenericInit specEnv ctx N (fun q c w => w.alloc (.deviceToken q c v)) w
      ).world.sink = w.sink := by
  rw [ogvrDeviceGenericInit_specEnv w ctx parent conn P N valid ds v hctx hpar hroom]
  have hne : w.heap.length ≠ ctx := Nat.ne_of_gt (World.obj_lt hctx)
  cases valid with
  | true =>
    simp only [if_true]
    refine ⟨by simp [World.store], ?_, fun p hp hpc => ?_, rfl⟩
    · rw [World.obj_store_other _ _ hne]
      exact World.obj_append_self w _
    · rw [World.obj_store_other _ _ hpc]
      exact World.obj_append_lt w _ hp
  | false =>
    simp only [Bool.false_eq_true, if_false]
    exact ⟨by simp, World.obj_append_self w _, fun p hp _ => World.obj_append_lt w _ hp,
      trivial⟩

/-- C9: on a plugin context named P whose parent has the Connection C attached, and with
room in the allocator, `ogvrDeviceSyncInit` and `ogvrDeviceAsyncInit` with device name N
create exactly one object: a token whose qualified name is P followed by "/" followed by
N, whose Connection is C, and whose execution model is the one of the entry point used
(Synchronous without a callback, respectively Asynchronous in state Created). Apart from
the plugin context that receives it, no existing object and nothing in the delivery sink
changes. Whatever the collaborators are, once the Connection `conn` has been retrieved
the entry point consults the factory only at the qualified name (`getName` followed by "/"
followed by N) and `conn` in the state it was called in: two factories that agree there
give the same result. -/
theorem init_creates_one_token_named_plugin_slash_device {σ : Type} (E : Env σ) (s : σ)
    (c0 : Ptr) (w : World)
    (ctx parent C : Ptr) (P N : String) (valid : Bool) (ds : List Ptr)
    (hctx : w.obj ctx = some (.pluginContext P parent valid ds))
    (hpar : w.obj parent = some (.registrationContext (some C)))
    (hroom : w.heap.length < w.capacity) :
    ((ogvrDeviceSyncInit specEnv (some ctx) N w).world.heap.length = w.heap.length + 1 ∧
      (ogvrDeviceSyncInit specEnv (some ctx) N w).world.obj w.heap.length
        = some (.deviceToken (P ++ "/" ++ N) C (.Synchronous none)) ∧
      (∀ p, p < w.heap.length → p ≠ ctx →
        (ogvrDeviceSyncInit specEnv (some ctx) N w).world.obj p = w.obj p) ∧
      (ogvrDeviceSyncInit specEnv (some ctx) N w).world.sink = w.sink) ∧
    ((ogvrDeviceAsyncInit specEnv (some ctx) N w).world.heap.length = w.heap.length + 1 ∧
      (ogvrDeviceAsyncInit specEnv (some ctx) N w).world.obj w.heap.length
        = some (.deviceToken (P ++ "/" ++ N) C (.Asynchronous none .Created)) ∧
      (∀ p, p < w.heap.length → p ≠ ctx →
        (ogvrDeviceAsyncInit specEnv (some ctx) N w).world.obj p = w.obj p) ∧
      (ogvrDeviceAsyncInit specEnv (some ctx) N w).world.sink = w.sink) ∧
    (ogvrDeviceSyncInit E (some c0) N s
        = ogvrDeviceGenericInit E c0 N E.createSyncDevice s ∧
      ogvrDeviceAsyncInit E (some c0) N s
        = ogvrDeviceGenericInit E c0 N E.createAsyncDevice s) ∧
    (∀ conn, E.retrieveConnection (E.getParent c0 s) s = some conn →
      ∀ f g : String → Ptr → Eff σ (Option Ptr),
        f (E.getName c0 s ++ "/" ++ N) conn s = g (E.getName c0 s ++ "/" ++ N) conn s →
        ogvrDeviceGenericInit E c0 N f s = ogvrDeviceGenericInit E c0 N g s) :=
  ⟨ogvrDeviceGenericInit_specEnv_world w ctx parent C P N valid ds (.Synchronous none)
      hctx hpar hroom,
    ogvrDeviceGenericInit_specEnv_world w ctx parent C P N valid ds
      (.Asynchronous none .Created) hctx hpar hroom,
    ⟨rfl, rfl⟩,
    fun conn hc f g hfg => by simp [ogvrDeviceGenericInit, hc, hfg]⟩

/-- C9 on the sample state: device "eye" of plugin "com.example.tracker". -/
theorem init_creates_one_token_named_plugin_slash_device_witness :
    (sampleWorld.obj 2 = some (.pluginContext "com.example.tracker" 0 true [3, 4, 5, 6]) ∧
      sampleWorld.obj 0 = some (.registrationContext (some 1)) ∧
      sampleWorld.heap.length < sampleWorld.capacity) ∧
    (ogvrDeviceSyncInit specEnv (some 2) "eye" sampleWorld).world.obj 7
        = some (.deviceToken "com.example.tracker/eye" 1 (.Synchronous none)) ∧
    (ogvrDeviceAsyncInit specEnv (some 2) "eye" sampleWorld).world.obj 7
        = some (.deviceToken "com.example.tracker/eye" 1 (.Asynchronous none .Created)) :=
  have h := init_creates_one_token_named_plugin_slash_device specEnv sampleWorld 2
    sampleWorld 2 0 1
    "com.example.tracker" "eye" true [3, 4, 5, 6] (by decide) (by decide) (by decide)
  ⟨⟨by decide, by decide, by decide⟩, h.1.2.1, h.2.1.2.1⟩

/-! ## Device creation: status and out-parameter -/

/-- In the concrete state a successful `ogvrDeviceGenericInit` leaves the handle of the
new object among the objects the plugin context holds for deletion. -/
theorem ogvrDeviceGenericInit_specEnv_owner (w : World) (ctx : Ptr) (name : String)
    (f : String → Ptr → Eff World (Option Ptr))
    (hs : (ogvrDeviceGenericInit specEnv ctx name f w).outcome
      = .returned OGVR_PLUGIN_SUCCESS) :
    ∃ p, (ogvrDeviceGenericInit specEnv ctx name f w).out = some (some p) ∧
      p ∈ (ogvrDeviceGenericInit specEnv ctx name f w).world.deletables ctx := by
  obtain ⟨conn, dev, w1, h, w2, hc, hf, hr⟩ :=
    (ogvrDeviceGenericInit_cases specEnv ctx name f w).1.1 hs
  rw [ogvrDeviceGenericInit_registered specEnv ctx name f w hc hf hr]
  obtain ⟨rfl, hds⟩ := registerObjectForDeletion_ok hr
  exact ⟨dev, rfl, by simp [hds]⟩

/-- C10: status and out-parameter of device creation agree. `ogvrDeviceSyncInit` and
`ogvrDeviceAsyncInit` on a non-null context are `ogvrDeviceGenericInit` with the
synchronous, respectively asynchronous, factory, and for every factory: the call returns
Success exactly when a Connection is retrieved, the factory returns a non-null token and
`registerObjectForDeletion` returns normally for that token; in that case the
out-parameter holds the handle `registerObjectForDeletion` returned and the state is the
one it left; whenever the call does not return Success the out-parameter is not assigned;
and without a Connection the call returns Failure with the state untouched, whatever the
factory would have done. In the concrete state a successful call leaves the handle among
the objects the plugin context owns. -/
theorem device_creation_status_agrees_with_out_parameter {σ : Type} (E : Env σ) (s : σ)
    (w : World) (ctx : Ptr) (name : String) :
    (ogvrDeviceSyncInit E (some ctx) name s
        = ogvrDeviceGenericInit E ctx name E.createSyncDevice s ∧
      ogvrDeviceAsyncInit E (some ctx) name s
        = ogvrDeviceGenericInit E ctx name E.createAsyncDevice s) ∧
    (∀ f : String → Ptr → Eff σ (Option Ptr),
      ((ogvrDeviceGenericInit E ctx name f s).outcome = .returned OGVR_PLUGIN_SUCCESS ↔
        ∃ conn dev s1 h s2,
          E.retrieveConnection (E.getParent ctx s) s = some conn ∧
          f (E.getName ctx s ++ "/" ++ name) conn s = (.ok (some dev), s1) ∧
          E.registerObjectForDeletion ctx (some dev) s1 = (.ok h, s2)) ∧
      (∀ conn dev s1 h s2,
        E.retrieveConnection (E.getParent ctx s) s = some conn →
        f (E.getName ctx s ++ "/" ++ name) conn s = (.ok (some dev), s1) →
        E.registerObjectForDeletion ctx (some dev) s1 = (.ok h, s2) →
        ogvrDeviceGenericInit E ctx name f s
          = ⟨.returned OGVR_PLUGIN_SUCCESS, some h, s2⟩) ∧
      ((ogvrDeviceGenericInit E ctx name f s).outcome ≠ .returned OGVR_PLUGIN_SUCCESS →
        (ogvrDeviceGenericInit E ctx name f s).out = none) ∧
      (E.retrieveConnection (E.getParent ctx s) s = none →
        ogvrDeviceGenericInit E ctx name f s = ⟨.returned OGVR_PLUGIN_FAILURE, none, s⟩)) ∧
    ((ogvrDeviceSyncInit specEnv (some ctx) name w).outcome = .returned OGVR_PLUGIN_SUCCESS →
      ∃ p, (ogvrDeviceSyncInit specEnv (some ctx) name w).out = some (some p) ∧
        p ∈ (ogvrDeviceSyncInit specEnv (some ctx) name w).world.deletables ctx) ∧
    ((ogvrDeviceAsyncInit specEnv (some ctx) name w).outcome = .returned OGVR_PLUGIN_SUCCESS →
      ∃ p, (ogvrDeviceAsyncInit specEnv (some ctx) name w).out = some (some p) ∧
        p ∈ (ogvrDeviceAsyncInit specEnv (some ctx) name w).world.deletables ctx) :=
  ⟨⟨rfl, rfl⟩, fun f => ogvrDeviceGenericInit_cases E ctx name f s,
    ogvrDeviceGenericInit_specEnv_owner w ctx name specEnv.createSyncDevice,
    ogvrDeviceGenericInit_specEnv_owner w ctx name specEnv.createAsyncDevice⟩

/-- C10 on the sample state (Success, handle owned by the plugin context) and on the state
without a Connection (Failure, nothing assigned, nothing changed). -/
theorem device_creation_status_agrees_with_out_parameter_witness :
    (ogvrDeviceSyncInit specEnv (some 2) "eye" sampleWorld).outcome
        = .returned OGVR_PLUGIN_SUCCESS ∧
    (∃ p, (ogvrDeviceSyncInit specEnv (some 2) "eye" sampleWorld).out = some (some p) ∧
      p ∈ (ogvrDeviceSyncInit specEnv (some 2) "eye" sampleWorld).world.deletables 2) ∧
    Connection.retrieveConnection
        (PluginSpecificRegistrationContext.getParent 1 orphanWorld) orphanWorld = none ∧
    ogvrDeviceAsyncInit specEnv (some 1) "eye" orphanWorld
        = ⟨.returned OGVR_PLUGIN_FAILURE, none, orphanWorld⟩ :=
  have h := device_creation_status_agrees_with_out_parameter specEnv orphanWorld sampleWorld
    2 "eye"
  have h1 := device_creation_status_agrees_with_out_parameter specEnv orphanWorld sampleWorld
    1 "eye"
  ⟨by decide, h.2.2.1 (by decide), by decide,
    h1.1.2.trans ((h1.2.1 specEnv.createAsyncDevice).2.2.2 (by decide))⟩

/-! ## Registering one name twice -/

end ogvr
